import Mathlib

/-!
Verification of the `vehicle-information-service-client` correlation logic
(`src/vehicle-information-service-client/src/lib.rs`).

The client sends one request over a websocket and then demultiplexes the
inbound frame stream.  We shallowly embed the four stream-processing
operations (`get`, `subscribe`, `subscribe_raw`, `unsubscribe_all`): the
inbound stream is a `List OwnedMessage`, where the end of the list models the
transport closing; a text frame carries the result of
`serde_json::from_str::<ActionSuccessResponse>` abstractly as an
`Option ActionSuccessResponse` (serde is an external crate); value
deserialization `serde_json::from_value::<T>` is a parameter
`des : Value → Option T`.  A Rust `expect`/`unwrap` panic is modelled as an
abort carrying the panic message; it is distinct from the error type of the client
`VISClientError`, which the code only ever produces from transport errors via
`map_err(Into::into)`.
-/

namespace VIS

/-- Request identifiers (`ReqID` in `api_type`): opaque, equality-comparable.
Modelled from the spec: `vehicle_information_service::api_type::ReqID` is part
of this repository but not under `src/`. -/
abbrev ReqID := Nat

/-- Subscription identifiers (`SubscriptionID` in `api_type`): opaque,
server-assigned, equality-comparable.  Modelled from the spec:
`vehicle_information_service::api_type::SubscriptionID` is part of this
repository but not under `src/`. -/
abbrev SubscriptionID := Nat

/-- An abstract JSON value (`serde_json::Value`): we distinguish `null` from
other payloads because `serde_json::from_value::<Option<T>>` maps `null` to
`Ok(None)` and any other value `v` to `from_value::<T>(v).map(Some)`. -/
inductive Value
  | null
  | num (n : Nat)
deriving DecidableEq

/-- The inbound response envelope.  Modelled from the spec (§3 Response union
and §6 wire shapes): `vehicle_information_service::api_type::ActionSuccessResponse`
is part of this repository but not under `src/`; the variants and fields are
exactly the ones `lib.rs` pattern-matches on, plus the implicit other case
(the `_ => ()` arm in `subscribe`). -/
inductive ActionSuccessResponse
  | get (request_id : ReqID) (value : Value)
  | subscribe (request_id : ReqID) (subscription_id : SubscriptionID)
  | subscription (subscription_id : SubscriptionID) (value : Value)
  | unsubscribeAll (request_id : ReqID)
  | other
deriving DecidableEq

/-- An inbound websocket frame (`websocket::OwnedMessage`).  A `text` frame
carries the result of decoding its payload with
`serde_json::from_str::<ActionSuccessResponse>` (`none` = malformed payload);
`nonText` stands for every other frame kind (binary, ping, pong, close). -/
inductive OwnedMessage
  | text (decoded : Option ActionSuccessResponse)
  | nonText
deriving DecidableEq

/-- The client error type (`VISClientError` in `lib.rs` lines 18-24): exactly
four variants, none of them a protocol or decoding error; the stream adapters
only ever produce it from transport errors via `map_err(Into::into)`. -/
inductive VISClientError
  | webSocketError
  | serdeError
  | ioError
  | other
deriving DecidableEq

/-- Panic message of `expect("Failed to deserialize VIS response")`
(`lib.rs` lines 84, 136, 176, 235). -/
def msgBadResponse : String := "Failed to deserialize VIS response"

/-- Panic message of `expect("Failed to deserialize GET Value")`
(`lib.rs` line 96). -/
def msgBadGetValue : String := "Failed to deserialize GET Value"

/-- Panic message of `expect("Failed to deserialize subscription value")`
(`lib.rs` line 202). -/
def msgBadSubscriptionValue : String := "Failed to deserialize subscription value"

/-- Panic message of `Option::unwrap` on `None` (`lib.rs` line 106, when the
stream ends before any item). -/
def msgUnwrapNone : String := "called Option::unwrap on a None value"

/-- `serde_json::from_value::<Option<T>>`: `null` deserializes to `Ok(None)`;
any other value `v` deserializes to `Ok(Some t)` exactly when
`from_value::<T>(v) = Ok(t)`, and fails otherwise. -/
def fromValueOpt {T : Type} (des : Value → Option T) : Value → Option (Option T)
  | .null => some none
  | v => (des v).map some

/-- One invocation of the `filter_map` closure in `VISClient::get`
(`lib.rs` lines 79-102): text frames are decoded (malformed payload panics via
`expect`); a decoded `Get` response with a different `request_id` is skipped;
a matching one has its value deserialized as `Option<T>` (failure panics via
`expect`); everything else is skipped.  `.error` is a panic, `.ok none` a
skip, `.ok (some t)` an emitted item. -/
def getFrame {T : Type} (request_id : ReqID) (des : Value → Option T)
    (msg : OwnedMessage) : Except String (Option T) :=
  match msg with
  | .text none => .error msgBadResponse
  | .text (some response) =>
    match response with
    | .get resp_request_id value =>
      if request_id ≠ resp_request_id then
        .ok none
      else
        match fromValueOpt des value with
        | none => .error msgBadGetValue
        | some o => .ok o
    | _ => .ok none
  | .nonText => .ok none

/-- Outcome of `VISClient::get`: either it resolves with a value (the `Ok`
branch on `lib.rs` line 106) or it panics (a failed `expect`/`unwrap`). -/
inductive GetOutcome (T : Type)
  | resolved (t : T)
  | panicked (msg : String)
deriving DecidableEq

/-- `VISClient::get` (`lib.rs` lines 65-107): run the filtering stage over the
inbound frames and await the first emitted item (`get_stream.next()` then
`unwrap`); if the stream ends first, `get_response.unwrap()` panics. -/
def getRun {T : Type} (request_id : ReqID) (des : Value → Option T) :
    List OwnedMessage → GetOutcome T
  | [] => .panicked msgUnwrapNone
  | m :: rest =>
    match getFrame request_id des m with
    | .error msg => .panicked msg
    | .ok (some t) => .resolved t
    | .ok none => getRun request_id des rest

/-- One invocation of the `filter_map` closure in `VISClient::subscribe`
(`lib.rs` lines 171-209), together with the shared
`Arc<Mutex<Option<SubscriptionID>>>` cell passed in as `st` and returned
updated.  A `Subscribe` ack with matching request id writes the cell (line
189) and emits nothing; a `Subscription` update is emitted iff the cell holds
its subscription id and its value deserializes into `T` (failure panics via
`expect`, line 202); all other frames are skipped.  The first component is
the cell after the frame; `.error` is a panic, `.ok none` a skip. -/
def subscribeFrame {T : Type} (request_id : ReqID) (des : Value → Option T)
    (st : Option SubscriptionID) (msg : OwnedMessage) :
    Option SubscriptionID × Except String (Option (SubscriptionID × T)) :=
  match msg with
  | .text none => (st, .error msgBadResponse)
  | .text (some action_success) =>
    match action_success with
    | .subscribe resp_request_id resp_subscription_id =>
      if resp_request_id ≠ request_id then
        (st, .ok none)
      else
        (some resp_subscription_id, .ok none)
    | .subscription resp_subscription_id value =>
      if st ≠ some resp_subscription_id then
        (st, .ok none)
      else
        match des value with
        | none => (st, .error msgBadSubscriptionValue)
        | some stream_value => (st, .ok (some (resp_subscription_id, stream_value)))
    | _ => (st, .ok none)
  | .nonText => (st, .ok none)

/-- How a returned stream stops early: `panicked` models a Rust
`expect`/`unwrap` panic unwinding out of the `filter_map` closure, `errored`
an `Err` item of the error type of the stream `VISClientError` (which
`map_err(Into::into)` produces only from transport errors, never from the
closures — so the runs below never construct it). -/
inductive StreamStop
  | panicked (msg : String)
  | errored (e : VISClientError)
deriving DecidableEq

/-- Run the `subscribe` filtering stage from cell state `st` over the inbound
frames: the emitted `(SubscriptionID, T)` items in order, paired with
`some (.panicked msg)` when a closure invocation panicked with message `msg`
(processing stops there), `none` when the inbound stream was consumed. -/
def subscribeRun {T : Type} (request_id : ReqID) (des : Value → Option T) :
    Option SubscriptionID → List OwnedMessage →
    List (SubscriptionID × T) × Option StreamStop
  | _, [] => ([], none)
  | st, m :: rest =>
    match subscribeFrame request_id des st m with
    | (_, .error msg) => ([], some (.panicked msg))
    | (st2, .ok none) => subscribeRun request_id des st2 rest
    | (st2, .ok (some out)) =>
      let r := subscribeRun request_id des st2 rest
      (out :: r.1, r.2)

/-- `VISClient::subscribe` (`lib.rs` lines 146-211): the cell starts as
`Default::default()`, i.e. `None` (line 168), then the filtering stage runs. -/
def subscribe {T : Type} (request_id : ReqID) (des : Value → Option T)
    (msgs : List OwnedMessage) : List (SubscriptionID × T) × Option StreamStop :=
  subscribeRun request_id des none msgs

/-- The subscription-id cell after the `subscribe` filtering stage has
processed the given frames starting from state `st` (frozen where a closure
invocation panics, since no later frame is processed). -/
def subscribeStateAfter {T : Type} (request_id : ReqID) (des : Value → Option T) :
    Option SubscriptionID → List OwnedMessage → Option SubscriptionID
  | st, [] => st
  | st, m :: rest =>
    match subscribeFrame request_id des st m with
    | (st2, .error _) => st2
    | (st2, .ok _) => subscribeStateAfter request_id des st2 rest

/-- One invocation of the `filter_map` closure in `VISClient::subscribe_raw`
(`lib.rs` lines 131-141): every text frame is decoded (malformed payload
panics via `expect`) and the decoded response is emitted unconditionally;
non-text frames are skipped. -/
def subscribeRawFrame (msg : OwnedMessage) :
    Except String (Option ActionSuccessResponse) :=
  match msg with
  | .text none => .error msgBadResponse
  | .text (some response) => .ok (some response)
  | .nonText => .ok none

/-- `VISClient::subscribe_raw` (`lib.rs` lines 111-143): the emitted responses
in order, paired with `some (.panicked msg)` when an invocation panicked. -/
def subscribeRawRun : List OwnedMessage → List ActionSuccessResponse × Option StreamStop
  | [] => ([], none)
  | m :: rest =>
    match subscribeRawFrame m with
    | .error msg => ([], some (.panicked msg))
    | .ok none => subscribeRawRun rest
    | .ok (some out) =>
      let r := subscribeRawRun rest
      (out :: r.1, r.2)

/-- One invocation of the `filter_map` closure in `VISClient::unsubscribe_all`
(`lib.rs` lines 230-251): text frames are decoded (malformed payload panics
via `expect`); an `UnsubscribeAll` ack with matching request id emits `()`;
everything else is skipped. -/
def unsubscribeAllFrame (request_id : ReqID) (msg : OwnedMessage) :
    Except String (Option Unit) :=
  match msg with
  | .text none => .error msgBadResponse
  | .text (some action_success) =>
    match action_success with
    | .unsubscribeAll resp_request_id =>
      if resp_request_id ≠ request_id then .ok none else .ok (some ())
    | _ => .ok none
  | .nonText => .ok none

/-- `VISClient::unsubscribe_all` (`lib.rs` lines 214-253): the stream of `()`
acknowledgements it returns, paired with `some (.panicked msg)` when an
invocation panicked.  Note it returns a stream and never awaits a first
item. -/
def unsubscribeAllRun (request_id : ReqID) :
    List OwnedMessage → List Unit × Option StreamStop
  | [] => ([], none)
  | m :: rest =>
    match unsubscribeAllFrame request_id m with
    | .error msg => ([], some (.panicked msg))
    | .ok none => unsubscribeAllRun request_id rest
    | .ok (some out) =>
      let r := unsubscribeAllRun request_id rest
      (out :: r.1, r.2)

/-- A well-formed (decodable) response embedded as a text frame. -/
def toFrame (a : ActionSuccessResponse) : OwnedMessage := .text (some a)

/-- A list of decodable responses embedded as text frames. -/
def toFrames (rs : List ActionSuccessResponse) : List OwnedMessage :=
  rs.map toFrame

/-- Whether a response is a `Subscribe` ack carrying the given request id:
exactly the frames on which `subscribe` writes the subscription-id cell
(`lib.rs` line 189). -/
def isMatchingSubscribeAck (request_id : ReqID) : ActionSuccessResponse → Bool
  | .subscribe resp_request_id _ => resp_request_id == request_id
  | _ => false

/-- Whether a response is a `Get` ack carrying the given request id. -/
def isMatchingGetAck (request_id : ReqID) : ActionSuccessResponse → Bool
  | .get resp_request_id _ => resp_request_id == request_id
  | _ => false

/-- Whether a response is an `UnsubscribeAll` ack carrying the given request
id: exactly the frames on which `unsubscribe_all` emits `()`. -/
def isMatchingUnsubscribeAllAck (request_id : ReqID) : ActionSuccessResponse → Bool
  | .unsubscribeAll resp_request_id => resp_request_id == request_id
  | _ => false

/-- Whether a response, if it is an update for subscription `S`, carries a
value that deserializes into `T` (vacuously true for every other response). -/
def matchingUpdateDecodes {T : Type} (S : SubscriptionID) (des : Value → Option T) :
    ActionSuccessResponse → Bool
  | .subscription sid v => if sid = S then (des v).isSome else true
  | _ => true

/-- The `(SubscriptionID, T)` pair a response contributes to the `subscribe`
output once the cell holds `some S`: updates for `S` whose value deserializes. -/
def emittedPair {T : Type} (S : SubscriptionID) (des : Value → Option T) :
    ActionSuccessResponse → Option (SubscriptionID × T)
  | .subscription sid v => if sid = S then (des v).map (fun t => (sid, t)) else none
  | _ => none

/-- Value deserializer for `T = Nat`, used to instantiate witnesses: `null`
does not deserialize into `Nat`, a number does. -/
def desNat : Value → Option Nat
  | .null => none
  | .num n => some n

/-! Helper lemmas about the frame-level steps and the runs. -/

/-- A decoded response that is not a `Get` ack for `request_id` is skipped by
the `get` closure. -/
theorem getFrame_toFrame_skip {T : Type} (request_id : ReqID) (des : Value → Option T)
    (a : ActionSuccessResponse) (h : isMatchingGetAck request_id a = false) :
    getFrame request_id des (toFrame a) = .ok none := by
  cases a with
  | get rid v =>
    have hne : rid ≠ request_id := by simpa [isMatchingGetAck] using h
    simp [getFrame, toFrame, Ne.symm hne]
  | subscribe rid sid => rfl
  | subscription sid v => rfl
  | unsubscribeAll rid => rfl
  | other => rfl

/-- If every inbound frame is skipped by the `get` closure, `get` consumes the
whole stream and then panics unwrapping `None`. -/
theorem getRun_all_skip {T : Type} (request_id : ReqID) (des : Value → Option T)
    (msgs : List OwnedMessage)
    (h : ∀ m ∈ msgs, getFrame request_id des m = .ok none) :
    getRun request_id des msgs = .panicked msgUnwrapNone := by
  induction msgs with
  | nil => rfl
  | cons m rest ih =>
    obtain ⟨hm, hr⟩ := List.forall_mem_cons.mp h
    rw [getRun, hm]
    exact ih hr

/-- A prefix of frames each skipped by the `get` closure does not affect the
outcome of `get`. -/
theorem getRun_skip_front {T : Type} (request_id : ReqID) (des : Value → Option T)
    (pre rest : List OwnedMessage)
    (h : ∀ m ∈ pre, getFrame request_id des m = .ok none) :
    getRun request_id des (pre ++ rest) = getRun request_id des rest := by
  induction pre with
  | nil => rfl
  | cons m pre ih =>
    obtain ⟨hm, hr⟩ := List.forall_mem_cons.mp h
    rw [List.cons_append, getRun, hm]
    exact ih hr

/-- While the cell is still empty, a decoded response that is not a matching
`Subscribe` ack is skipped by the `subscribe` closure and leaves the cell
empty. -/
theorem subscribeFrame_awaiting_skip {T : Type} (request_id : ReqID)
    (des : Value → Option T) (a : ActionSuccessResponse)
    (h : isMatchingSubscribeAck request_id a = false) :
    subscribeFrame request_id des none (toFrame a) = (none, .ok none) := by
  cases a with
  | subscribe rid sid =>
    have hne : rid ≠ request_id := by simpa [isMatchingSubscribeAck] using h
    simp [subscribeFrame, toFrame, hne]
  | subscription sid v => simp [subscribeFrame, toFrame]
  | get rid v => rfl
  | unsubscribeAll rid => rfl
  | other => rfl

/-- A prefix of decoded responses containing no matching `Subscribe` ack is
discarded by the `subscribe` filtering stage, leaving the cell empty. -/
theorem subscribeRun_skip_front {T : Type} (request_id : ReqID)
    (des : Value → Option T) (pre : List ActionSuccessResponse)
    (rest : List OwnedMessage)
    (h : ∀ a ∈ pre, isMatchingSubscribeAck request_id a = false) :
    subscribeRun request_id des none (toFrames pre ++ rest) =
      subscribeRun request_id des none rest := by
  induction pre with
  | nil => rfl
  | cons a pre ih =>
    obtain ⟨ha, hr⟩ := List.forall_mem_cons.mp h
    have step := subscribeFrame_awaiting_skip request_id des a ha
    rw [show toFrames (a :: pre) ++ rest = toFrame a :: (toFrames pre ++ rest) by
      simp [toFrames]]
    rw [subscribeRun, step]
    exact ih hr

/-- Once the cell holds `some S`, running the `subscribe` filtering stage over
decoded responses that contain no matching `Subscribe` ack, and whose updates
for `S` all carry deserializable values, emits exactly the update pairs for
`S`, in order, with no panic. -/
theorem subscribeRun_streaming {T : Type} (request_id : ReqID) (S : SubscriptionID)
    (des : Value → Option T) (post : List ActionSuccessResponse)
    (h1 : ∀ a ∈ post, isMatchingSubscribeAck request_id a = false)
    (h2 : ∀ a ∈ post, matchingUpdateDecodes S des a = true) :
    subscribeRun request_id des (some S) (toFrames post) =
      (post.filterMap (emittedPair S des), none) := by
  induction post with
  | nil => rfl
  | cons a post ih =>
    obtain ⟨h1a, h1r⟩ := List.forall_mem_cons.mp h1
    obtain ⟨h2a, h2r⟩ := List.forall_mem_cons.mp h2
    have tail := ih h1r h2r
    rw [show toFrames (a :: post) = toFrame a :: toFrames post by simp [toFrames]]
    cases a with
    | subscribe rid sid =>
      have hne : rid ≠ request_id := by simpa [isMatchingSubscribeAck] using h1a
      rw [subscribeRun, show subscribeFrame request_id des (some S) (toFrame (.subscribe rid sid)) = (some S, .ok none) by simp [subscribeFrame, toFrame, hne]]
      simpa [emittedPair] using tail
    | subscription sid v =>
      by_cases hs : sid = S
      · subst hs
        have hdec : (des v).isSome = true := by
          simpa [matchingUpdateDecodes] using h2a
        obtain ⟨t, ht⟩ := Option.isSome_iff_exists.mp hdec
        rw [subscribeRun, show subscribeFrame request_id des (some sid) (toFrame (.subscription sid v)) = (some sid, .ok (some (sid, t))) by simp [subscribeFrame, toFrame, ht]]
        simp [tail, emittedPair, ht]
      · rw [subscribeRun, show subscribeFrame request_id des (some S) (toFrame (.subscription sid v)) = (some S, .ok none) by simp [subscribeFrame, toFrame, Ne.symm hs]]
        simpa [emittedPair, hs] using tail
    | get rid v =>
      rw [subscribeRun, show subscribeFrame request_id des (some S) (toFrame (.get rid v)) = (some S, .ok none) from rfl]
      simpa [emittedPair] using tail
    | unsubscribeAll rid =>
      rw [subscribeRun, show subscribeFrame request_id des (some S) (toFrame (.unsubscribeAll rid)) = (some S, .ok none) from rfl]
      simpa [emittedPair] using tail
    | other =>
      rw [subscribeRun, show subscribeFrame request_id des (some S) (toFrame .other) = (some S, .ok none) from rfl]
      simpa [emittedPair] using tail

/-- If every inbound frame is skipped by the `unsubscribe_all` closure, the
returned stream ends having emitted nothing, with no panic and no error. -/
theorem unsubscribeAllRun_all_skip (request_id : ReqID)
    (msgs : List OwnedMessage)
    (h : ∀ m ∈ msgs, unsubscribeAllFrame request_id m = .ok none) :
    unsubscribeAllRun request_id msgs = ([], none) := by
  induction msgs with
  | nil => rfl
  | cons m rest ih =>
    obtain ⟨hm, hr⟩ := List.forall_mem_cons.mp h
    rw [unsubscribeAllRun, hm]
    exact ih hr

/-- Over decoded responses, `unsubscribe_all` emits one `()` per
`UnsubscribeAll` ack carrying its request id, and nothing else. -/
theorem unsubscribeAllRun_toFrames_count (request_id : ReqID)
    (rs : List ActionSuccessResponse) :
    unsubscribeAllRun request_id (toFrames rs) =
      (List.replicate (rs.countP (isMatchingUnsubscribeAllAck request_id)) (), none) := by
  induction rs with
  | nil => rfl
  | cons a rs ih =>
    rw [show toFrames (a :: rs) = toFrame a :: toFrames rs by simp [toFrames]]
    cases a with
    | unsubscribeAll rid =>
      by_cases hr : rid = request_id
      · subst hr
        rw [unsubscribeAllRun, show unsubscribeAllFrame rid (toFrame (.unsubscribeAll rid)) = .ok (some ()) by simp [unsubscribeAllFrame, toFrame]]
        simp [ih, List.countP_cons, isMatchingUnsubscribeAllAck, List.replicate_succ]
      · rw [unsubscribeAllRun, show unsubscribeAllFrame request_id (toFrame (.unsubscribeAll rid)) = .ok none by simp [unsubscribeAllFrame, toFrame, hr]]
        simp [ih, List.countP_cons, isMatchingUnsubscribeAllAck, hr]
    | get rid v =>
      rw [unsubscribeAllRun, show unsubscribeAllFrame request_id (toFrame (.get rid v)) = .ok none from rfl]
      simp [ih, List.countP_cons, isMatchingUnsubscribeAllAck]
    | subscribe rid sid =>
      rw [unsubscribeAllRun, show unsubscribeAllFrame request_id (toFrame (.subscribe rid sid)) = .ok none from rfl]
      simp [ih, List.countP_cons, isMatchingUnsubscribeAllAck]
    | subscription sid v =>
      rw [unsubscribeAllRun, show unsubscribeAllFrame request_id (toFrame (.subscription sid v)) = .ok none from rfl]
      simp [ih, List.countP_cons, isMatchingUnsubscribeAllAck]
    | other =>
      rw [unsubscribeAllRun, show unsubscribeAllFrame request_id (toFrame .other) = .ok none from rfl]
      simp [ih, List.countP_cons, isMatchingUnsubscribeAllAck]

/-! The claims. -/

/-- Claim C1: for a decodable inbound sequence with one matching
`SubscribeAck` for the generated request id, the stream returned by
`subscribe` emits exactly the `(subscription_id, value)` pairs of the
`SubscriptionUpdate` frames whose subscription id equals the one recorded
from that ack, in arrival order; frames received before the ack and frames
with other request or subscription ids are discarded without output and
without error. -/
theorem C1_subscribe_correlation {T : Type} (request_id : ReqID)
    (S : SubscriptionID) (des : Value → Option T)
    (pre post : List ActionSuccessResponse)
    (hpre : ∀ a ∈ pre, isMatchingSubscribeAck request_id a = false)
    (hpost : ∀ a ∈ post, isMatchingSubscribeAck request_id a = false)
    (hdec : ∀ a ∈ post, matchingUpdateDecodes S des a = true) :
    subscribe request_id des
        (toFrames (pre ++ ActionSuccessResponse.subscribe request_id S :: post)) =
      (post.filterMap (emittedPair S des), none) := by
  unfold subscribe
  rw [show toFrames (pre ++ ActionSuccessResponse.subscribe request_id S :: post)
        = toFrames pre ++ (toFrame (.subscribe request_id S) :: toFrames post) by
      simp [toFrames]]
  rw [subscribeRun_skip_front request_id des pre _ hpre]
  rw [subscribeRun, show subscribeFrame request_id des none
        (toFrame (.subscribe request_id S)) = (some S, .ok none) by
      simp [subscribeFrame, toFrame]]
  exact subscribeRun_streaming request_id S des post hpost hdec

/-- Witness for C1 at the scenario given in the spec: `SubscribeAck{r=0, sid=1}`,
then updates for sid 1 (value 10), sid 2 (value 20), sid 1 (value 30); the
output is exactly `(1, 10), (1, 30)` with no error. -/
theorem C1_subscribe_correlation_witness :
    subscribe 0 desNat (toFrames [ActionSuccessResponse.subscribe 0 1,
        .subscription 1 (.num 10), .subscription 2 (.num 20),
        .subscription 1 (.num 30)]) = ([(1, 10), (1, 30)], none) := by
  have h := C1_subscribe_correlation 0 1 desNat []
      [.subscription 1 (.num 10), .subscription 2 (.num 20),
       .subscription 1 (.num 30)]
      (by decide) (by decide) (by decide)
  simpa [emittedPair, desNat] using h

/-- Claim C2: over a decodable inbound sequence whose frames before the first
matching `GetAck` contain no `GetAck` for the generated request id, `get`
discards them silently and resolves to the deserialized value of the first
matching `GetAck`, never reading past it. -/
theorem C2_get_correlation {T : Type} (request_id : ReqID)
    (des : Value → Option T) (V : Value) (t : T)
    (pre post : List ActionSuccessResponse)
    (hpre : ∀ a ∈ pre, isMatchingGetAck request_id a = false)
    (hv : fromValueOpt des V = some (some t)) :
    getRun request_id des
        (toFrames (pre ++ ActionSuccessResponse.get request_id V :: post)) =
      .resolved t := by
  rw [show toFrames (pre ++ ActionSuccessResponse.get request_id V :: post)
        = toFrames pre ++ (toFrame (.get request_id V) :: toFrames post) by
      simp [toFrames]]
  rw [getRun_skip_front request_id des (toFrames pre) _ (by
    intro m hm
    obtain ⟨a, ha, rfl⟩ := List.mem_map.mp hm
    exact getFrame_toFrame_skip request_id des a (hpre a ha))]
  rw [getRun, show getFrame request_id des (toFrame (.get request_id V))
        = .ok (some t) by simp [getFrame, toFrame, hv]]

/-- Witness for C2 at the scenario given in the spec: a `GetAck` with non-matching
request id 1 arrives first, then the matching `GetAck{r=0, value=7}`; `get`
resolves to 7 and ignores the first frame (and everything after the match). -/
theorem C2_get_correlation_witness :
    getRun 0 desNat (toFrames [ActionSuccessResponse.get 1 (.num 5),
        .get 0 (.num 7), .other]) = .resolved 7 := by
  have h := C2_get_correlation 0 desNat (.num 7) 7
      [.get 1 (.num 5)] [.other] (by decide) (by decide)
  simpa using h

/-- Claim C3 counterexample: an undecodable text frame unrelated to the
awaited id terminates both `get` and `subscribe` with a panic — even when the
frame that should have matched follows right after — instead of being dropped
with the operation continuing. -/
theorem C3_counterexample :
    getRun 0 desNat [OwnedMessage.text none, toFrame (.get 0 (.num 5))] =
      .panicked msgBadResponse ∧
    subscribe 0 desNat [OwnedMessage.text none,
        toFrame (.subscribe 0 1), toFrame (.subscription 1 (.num 5))] =
      ([], some (.panicked msgBadResponse)) :=
  ⟨rfl, rfl⟩

/-- Claim C3 as amended: any malformed text frame makes `get` and `subscribe`
panic with the `expect` message `Failed to deserialize VIS response`,
terminating the operation regardless of whether the frame relates to the
awaited id; no `ProtocolError`-like `VISClientError` value is produced. -/
theorem C3_amended {T : Type} (request_id : ReqID) (des : Value → Option T)
    (st : Option SubscriptionID) (rest : List OwnedMessage) :
    getRun request_id des (.text none :: rest) = .panicked msgBadResponse ∧
    subscribeRun request_id des st (.text none :: rest) =
      ([], some (.panicked msgBadResponse)) :=
  ⟨rfl, rfl⟩

/-- Claim C4 counterexample: when the transport closes (inbound list ends)
before any matching frame, `get` panics unwrapping `None` — its outcome type
has no error result at all — and the stream returned by `unsubscribe_all`
ends silently with no items and no error, instead of either failing with a
`TransportError` result. -/
theorem C4_counterexample :
    getRun 0 desNat [] = .panicked msgUnwrapNone ∧
    unsubscribeAllRun 0 [] = ([], none) :=
  ⟨rfl, rfl⟩

/-- Claim C4 as amended: if every inbound frame is skipped and the transport
then closes, `get` panics (`Option::unwrap` on `None`) rather than returning
an error result, and `unsubscribe_all` yields a silently empty stream with no
error. -/
theorem C4_amended {T : Type} (request_id : ReqID) (des : Value → Option T)
    (msgs msgs2 : List OwnedMessage)
    (h1 : ∀ m ∈ msgs, getFrame request_id des m = .ok none)
    (h2 : ∀ m ∈ msgs2, unsubscribeAllFrame request_id m = .ok none) :
    getRun request_id des msgs = .panicked msgUnwrapNone ∧
    unsubscribeAllRun request_id msgs2 = ([], none) :=
  ⟨getRun_all_skip request_id des msgs h1,
   unsubscribeAllRun_all_skip request_id msgs2 h2⟩

/-- Witness for the amended C4: a lone non-text frame, then close. -/
theorem C4_amended_witness :
    getRun 0 desNat [OwnedMessage.nonText] = .panicked msgUnwrapNone ∧
    unsubscribeAllRun 0 [OwnedMessage.nonText] = ([], none) :=
  C4_amended 0 desNat [OwnedMessage.nonText] [OwnedMessage.nonText]
    (by intro m hm; rcases List.mem_singleton.mp hm with rfl; rfl)
    (by intro m hm; rcases List.mem_singleton.mp hm with rfl; rfl)

/-- Claim C5 counterexample: a matched `SubscriptionUpdate` whose value does
not deserialize into `T = Nat` (here `null`) makes `subscribe` panic with the
`expect` message — a panic, not a `VISClientError`; nothing is emitted even
though a well-formed matching update follows. -/
theorem C5_counterexample :
    subscribe 0 desNat (toFrames [ActionSuccessResponse.subscribe 0 1,
        .subscription 1 Value.null, .subscription 1 (.num 9)]) =
      ([], some (.panicked msgBadSubscriptionValue)) :=
  rfl

/-- Claim C5 as amended: once the cell holds the recorded subscription id, a
matching update whose value fails to deserialize into `T` terminates the
subscription fatally — by panicking with `Failed to deserialize subscription
value` rather than by yielding a `ProtocolError`-like error value — and the
frame is not skipped. -/
theorem C5_amended {T : Type} (request_id : ReqID) (S : SubscriptionID)
    (des : Value → Option T) (v : Value) (rest : List OwnedMessage)
    (h : des v = none) :
    subscribeRun request_id des (some S)
        (toFrame (.subscription S v) :: rest) =
      ([], some (.panicked msgBadSubscriptionValue)) := by
  rw [subscribeRun, show subscribeFrame request_id des (some S)
        (toFrame (.subscription S v)) = (some S, .error msgBadSubscriptionValue) by
      simp [subscribeFrame, toFrame, h]]

/-- Witness for the amended C5: request id 0, recorded subscription id 1, a
matched update carrying `null`. -/
theorem C5_amended_witness :
    subscribeRun 0 desNat (some 1)
        [toFrame (.subscription 1 Value.null), toFrame (.subscription 1 (.num 9))] =
      ([], some (.panicked msgBadSubscriptionValue)) :=
  C5_amended 0 1 desNat Value.null [toFrame (.subscription 1 (.num 9))] rfl

/-- Claim C6 counterexample: the stream returned by `unsubscribe_all` does
not stop at the first matching ack — two matching `UnsubscribeAll` acks
produce two `()` results, so the operation is not single-shot. -/
theorem C6_counterexample :
    unsubscribeAllRun 0 (toFrames [ActionSuccessResponse.unsubscribeAll 0,
        .unsubscribeAll 0]) = ([(), ()], none) :=
  rfl

/-- Claim C6 as amended: `get` resolves at exactly the first frame its
closure emits for, reading no further frames; `unsubscribe_all`, by contrast,
returns a stream that emits one `()` for every matching `UnsubscribeAll` ack
in the inbound sequence, continuing past the first. -/
theorem C6_amended {T : Type} (request_id : ReqID) (des : Value → Option T)
    (m : OwnedMessage) (t : T)
    (h : getFrame request_id des m = .ok (some t)) :
    (∀ post, getRun request_id des (m :: post) = .resolved t) ∧
    (∀ rs : List ActionSuccessResponse,
      unsubscribeAllRun request_id (toFrames rs) =
        (List.replicate (rs.countP (isMatchingUnsubscribeAllAck request_id)) (),
         none)) := by
  constructor
  · intro post
    rw [getRun, h]
  · intro rs
    exact unsubscribeAllRun_toFrames_count request_id rs

/-- Witness for the amended C6: `get` resolves 4 at the first matching frame
while arbitrary frames follow; `unsubscribe_all` over one matching ack and
one other response emits exactly one `()`. -/
theorem C6_amended_witness :
    getRun 0 desNat [toFrame (.get 0 (.num 4)), OwnedMessage.nonText] =
      .resolved 4 ∧
    unsubscribeAllRun 0 (toFrames [ActionSuccessResponse.unsubscribeAll 0,
        .other]) = ([()], none) := by
  have h := C6_amended 0 desNat (toFrame (.get 0 (.num 4))) 4 (by
    simp [getFrame, toFrame, fromValueOpt, desNat])
  refine ⟨h.1 [OwnedMessage.nonText], ?_⟩
  have h2 := h.2 [ActionSuccessResponse.unsubscribeAll 0, .other]
  simpa [isMatchingUnsubscribeAllAck] using h2

/-- Claim C7 counterexample: in `subscribe_raw`, a text frame that fails to
decode panics with the `expect` message — a panic unwinding out of the
closure, not a terminal `ProtocolError`-like `Err` item on the stream — and
the decodable frame after it is never emitted. -/
theorem C7_counterexample :
    subscribeRawRun [OwnedMessage.text none, toFrame .other] =
      ([], some (.panicked msgBadResponse)) :=
  rfl

/-- Claim C7 as amended: `subscribe_raw` emits every successfully decoded
`Response`, regardless of kind or of any request/subscription id (no
correlation filtering); a text frame that fails to decode terminates
processing by panicking with `Failed to deserialize VIS response`, not by
surfacing a `VISClientError` on the stream. -/
theorem C7_amended :
    (∀ rs : List ActionSuccessResponse, subscribeRawRun (toFrames rs) = (rs, none)) ∧
    (∀ rest : List OwnedMessage,
      subscribeRawRun (.text none :: rest) = ([], some (.panicked msgBadResponse))) := by
  constructor
  · intro rs
    induction rs with
    | nil => rfl
    | cons a rs ih =>
      rw [show toFrames (a :: rs) = toFrame a :: toFrames rs by simp [toFrames]]
      rw [subscribeRawRun, show subscribeRawFrame (toFrame a) = .ok (some a) from rfl]
      simp [ih]
  · intro rest
    rfl

/-- Claim C8: a non-text frame (binary or control) is skipped by all four
operations — treated as no response, with no output and no error: processing
the frame leaves each run exactly where it was. -/
theorem C8_nonText_skipped {T : Type} (request_id : ReqID)
    (des : Value → Option T) (st : Option SubscriptionID)
    (rest : List OwnedMessage) :
    getRun request_id des (.nonText :: rest) = getRun request_id des rest ∧
    subscribeRun request_id des st (.nonText :: rest) =
      subscribeRun request_id des st rest ∧
    subscribeRawRun (.nonText :: rest) = subscribeRawRun rest ∧
    unsubscribeAllRun request_id (.nonText :: rest) =
      unsubscribeAllRun request_id rest :=
  ⟨rfl, rfl, rfl, rfl⟩

/-- Witness for C8 (its statement has no proposition hypotheses, but we
record a concrete instance anyway): skipping a non-text frame in front of a
matching get ack still resolves. -/
theorem C8_nonText_skipped_witness :
    getRun 0 desNat [OwnedMessage.nonText, toFrame (.get 0 (.num 4))] =
      getRun 0 desNat [toFrame (.get 0 (.num 4))] :=
  (C8_nonText_skipped 0 desNat none [toFrame (.get 0 (.num 4))]).1

/-- Claim C9 counterexample: the subscription-id cell is not written at most
once — a second `SubscribeAck` carrying the same request id overwrites it:
after `SubscribeAck{r=0, sid=1}` the cell holds `some 1`, and after a further
`SubscribeAck{r=0, sid=2}` it holds `some 2`. -/
theorem C9_counterexample :
    subscribeStateAfter 0 desNat none
        (toFrames [ActionSuccessResponse.subscribe 0 1]) = some 1 ∧
    subscribeStateAfter 0 desNat none
        (toFrames [ActionSuccessResponse.subscribe 0 1, .subscribe 0 2]) = some 2 :=
  ⟨rfl, rfl⟩

/-- Claim C9 as amended: the cell starts empty (`subscribe` runs the filter
stage from `none`), and on each frame it is written if and only if the frame
is a `SubscribeAck` whose request id matches the generated one — such an ack
stores that subscription id of that ack (a later matching ack overwrites an earlier
one); every other frame leaves the cell unchanged and only reads it.  It is
therefore written exactly once precisely when one matching ack arrives. -/
theorem C9_amended {T : Type} (request_id : ReqID) (des : Value → Option T)
    (st : Option SubscriptionID) (msg : OwnedMessage) :
    (∀ msgs, subscribe request_id des msgs = subscribeRun request_id des none msgs) ∧
    (subscribeFrame request_id des st msg).1 =
      (match msg with
       | .text (some (.subscribe rid sid)) =>
         if rid = request_id then some sid else st
       | _ => st) := by
  refine ⟨fun _ => rfl, ?_⟩
  cases msg with
  | nonText => rfl
  | text decoded =>
    cases decoded with
    | none => rfl
    | some a =>
      cases a with
      | subscribe rid sid =>
        by_cases hr : rid = request_id
        · simp [subscribeFrame, hr]
        · simp [subscribeFrame, hr]
      | subscription sid v =>
        by_cases hs : st = some sid
        · cases hd : des v <;> simp [subscribeFrame, hs, hd]
        · simp [subscribeFrame, hs]
      | get rid v => rfl
      | unsubscribeAll rid => rfl
      | other => rfl

/-- Claim C10: a `GetAck` whose request id matches but whose value is JSON
`null` deserializes to `None` under `Option<T>` inside the `filter_map`, so
`get` silently skips the frame and keeps waiting on the rest of the stream,
neither resolving nor erroring on it. -/
theorem C10_null_get_value_skipped {T : Type} (request_id : ReqID)
    (des : Value → Option T) (rest : List OwnedMessage) :
    getRun request_id des
        (toFrame (.get request_id Value.null) :: rest) =
      getRun request_id des rest := by
  rw [getRun, show getFrame request_id des (toFrame (.get request_id Value.null))
        = .ok none by simp [getFrame, toFrame, fromValueOpt]]

/-- Witness for C10 (no proposition hypotheses; recorded instance): the
matching-but-null ack is skipped, and a later matching ack resolves. -/
theorem C10_null_get_value_skipped_witness :
    getRun 0 desNat [toFrame (.get 0 Value.null), toFrame (.get 0 (.num 6))] =
      getRun 0 desNat [toFrame (.get 0 (.num 6))] :=
  C10_null_get_value_skipped 0 desNat [toFrame (.get 0 (.num 6))]

end VIS
